import Mathlib

/-!
Shallow embedding of `update-repo.py`.

The script is a single-pass command-line tool: it parses three positional
arguments, resolves the caller's GitHub handle through the `gh` CLI, walks the
working directory, and for each directory containing a child named like the
destination directory (or literally `news`) it copies a file, optionally renders
a Jinja template variable, and stages/commits/pushes/opens a pull request via
shell commands.

The embedding models:
  * the external world as an `Env` record (command success oracle, filesystem
    existence oracle, file contents, `gh` identity);
  * the observable effects as a trace of `Event`s (prints, file copies, file
    writes, executed shell commands), with fail-fast errors in `Except`;
  * `os.walk('./')` output as an explicit list of `(dirpath, dirnames,
    filenames)` entries supplied as input.  The environment is read-only during
    one run, matching the script, which tests each destination path exactly
    once and never re-reads a path it has written.
Python string primitives (`str.split` with a one-character separator,
`str.strip`, `os.path.join` for POSIX paths) are embedded directly; the Jinja2
`Template(...).render(project_name=...)` call is embedded for the fragment the
script exercises (variable tags), see `renderCore`.
-/

/-- Python `s.split(sep)` for a one-character separator, on explicit character
lists: `"".split(sep) == [""]`, and separators at either end produce empty
fields. -/
def splitOnChar (sep : Char) : List Char → List (List Char)
  | [] => [[]]
  | c :: rest =>
    match splitOnChar sep rest with
    | [] => [[c]]
    | h :: t => if c = sep then [] :: h :: t else (c :: h) :: t

/-- Python `s.split(sep)` for a one-character separator, producing strings. -/
def pySplit (s : String) (sep : Char) : List String :=
  (splitOnChar sep s.data).map String.mk

/-- Python `s.strip()`: remove leading and trailing whitespace. -/
def pyStrip (s : String) : String :=
  String.mk (((s.data.dropWhile Char.isWhitespace).reverse.dropWhile
    Char.isWhitespace).reverse)

/-- The opening-brace character of a Jinja variable tag. -/
def lbrace : Char := Char.ofNat 123

/-- The closing-brace character of a Jinja variable tag. -/
def rbrace : Char := Char.ofNat 125

/-- Model of the fragment of Jinja2 rendering exercised by
`Template(content).render(project_name=package_name)` in `update_project_name`
(src/update-repo.py lines 54-67): a left-to-right scan that replaces each
variable tag (an expression delimited by double braces) by the value bound to
`project_name` when the whitespace-stripped expression is `project_name`, and
by the empty string otherwise — Jinja renders undefined variables as the empty
string.  Statement blocks, comments, filters and malformed tags are outside the
modelled fragment.  The `Option` argument is the scanner state: `none` outside
a tag, `some acc` inside a tag with `acc` holding the characters read so far in
reverse. -/
def renderCore (pkg : String) : List Char → Option (List Char) → List Char
  | [], none => []
  | [], some acc => lbrace :: lbrace :: acc.reverse
  | c :: rest, none =>
    if c = lbrace then
      match rest with
      | [] => [c]
      | c2 :: rest2 =>
        if c2 = lbrace then renderCore pkg rest2 (some [])
        else c :: c2 :: renderCore pkg rest2 none
    else c :: renderCore pkg rest none
  | c :: rest, some acc =>
    if c = rbrace then
      match rest with
      | [] => lbrace :: lbrace :: acc.reverse ++ [c]
      | c2 :: rest2 =>
        if c2 = rbrace then
          (if pyStrip (String.mk acc.reverse) = "project_name" then pkg.data
           else []) ++ renderCore pkg rest2 none
        else renderCore pkg rest2 (some (c2 :: c :: acc))
    else renderCore pkg rest (some (c :: acc))

/-- String-level rendering: `Template(content).render(project_name=pkg)`. -/
def renderS (content pkg : String) : String :=
  String.mk (renderCore pkg content.data none)

/-- POSIX `os.path.join(a, b)`. -/
def pathJoin (a b : String) : String :=
  if b.data.head? = some '/' then b
  else if a = "" ∨ a.data.getLast? = some '/' then a ++ b
  else a ++ "/" ++ b

/-- Python `l[-1]` on the (never-empty) result of a `split`. -/
def pyLast (l : List String) : String := l.getLastD ""

/-- One observable effect of the script. -/
inductive Event where
  | print (msg : String)
  | copy (src dst : String)
  | writeFile (path content : String)
  | run (cmd cwd : String)
  deriving DecidableEq, Repr

/-- The ways a run can abort: an external command failing under `check=True`
(`subprocess.CalledProcessError`), a list index out of range (`IndexError`),
or an explicitly raised `RuntimeError`. -/
inductive Err where
  | calledProcessError (cmd cwd : String)
  | indexError
  | runtimeError (msg : String)
  deriving DecidableEq, Repr

/-- The external world, fixed for one run: whether `gh api user` succeeds and
its raw output, which shell commands succeed (per command text and working
directory), which paths exist, and what reading a file returns. -/
structure Env where
  ghUserOk : Bool
  ghLogin : String
  cmdOk : String → String → Bool
  pathExists : String → Bool
  readFile : String → String

/-- Result of a (sub)computation: the ordered trace of its effects, or the
error that aborted the run. -/
abbrev M := Except Err (List Event)

/-- Sequencing: effects of the first part, then of the second; the first error
aborts (fail-fast, mirroring unhandled Python exceptions). -/
def mseq (a b : M) : M :=
  match a with
  | Except.error e => Except.error e
  | Except.ok xs =>
    match b with
    | Except.error e => Except.error e
    | Except.ok ys => Except.ok (xs ++ ys)

/-- `run_command` (src/update-repo.py lines 31-39): run a shell command with
`check=True` in the given directory; a non-zero exit raises
`CalledProcessError`, which nothing in the script catches. -/
def run_command (env : Env) (command cwd : String) : M :=
  if env.cmdOk command cwd then Except.ok [Event.run command cwd]
  else Except.error (Err.calledProcessError command cwd)

/-- `sync_with_main_branch` (lines 48-51): check out `main`, pull from
`upstream`. -/
def sync_with_main_branch (env : Env) (package_dir_path : String) : M :=
  mseq (run_command env "git checkout main" package_dir_path)
    (run_command env "git pull upstream main" package_dir_path)

/-- `update_project_name` (lines 54-67): read the destination file, render it
as a Jinja template with `project_name` bound to the package name, write the
result back. -/
def update_project_name (env : Env) (dest_file_path package_name : String) : M :=
  Except.ok [Event.writeFile dest_file_path
    (renderS (env.readFile dest_file_path) package_name)]

/-- `new_branch` (lines 70-71): create a topic branch named after the source
file. -/
def new_branch (env : Env) (package_dir_path source_file : String) : M :=
  run_command env ("git checkout -b " ++ source_file) package_dir_path

/-- Organization-name rule (lines 86-89): `diffpy` when the first dot-separated
segment of the package name is `diffpy`, otherwise `Billingegroup`. -/
def orgOf (package_name : String) : String :=
  if (pySplit package_name '.').headD "" = "diffpy" then "diffpy"
  else "Billingegroup"

/-- The `gh pr create` command string assembled at lines 111-115. -/
def pr_command (username file : String) : String :=
  "gh pr create --base main --head " ++ username ++ ":" ++ file ++
    " --title \x27Add " ++ file ++ " to workflows\x27 --body \x27Added " ++
    file ++ " to workflows\x27"

/-- `create_PR` (lines 93-118): stage the workflow file and the fixed news
path, commit, push the branch named after `file`, set the default repo, and
create the pull request. -/
def create_PR (env : Env) (cwd file username package_name org_name : String) : M :=
  mseq (run_command env ("git add workflows/" ++ file) cwd)
    (mseq (run_command env "git add ../news/build-workflow.rst" cwd)
      (mseq (run_command env ("git commit -m \"Add " ++ file ++ " to workflow\"") cwd)
        (mseq (run_command env ("git push origin " ++ file) cwd)
          (mseq (run_command env
              ("gh repo set-default " ++ org_name ++ "/" ++ package_name) cwd)
            (run_command env (pr_command username file) cwd)))))

/-- `copy_file` (lines 74-90): copy the file, print, and — unless the copied
basename is exactly `build-workflow.rst` — derive the package name as path
segment 1 of `package_dir_path.split('/')` (an out-of-range index raises
`IndexError`), render the template variable, and create the PR under the
derived organization. -/
def copy_file (env : Env)
    (source_file package_dir_path package_workflow_dir_path dest_file_path
      username : String) : M :=
  mseq (Except.ok [Event.copy source_file dest_file_path,
                   Event.print ("File copied to " ++ package_workflow_dir_path),
                   Event.print source_file])
    (if source_file = "build-workflow.rst" then Except.ok []
     else
       match (pySplit package_dir_path '/').get? 1 with
       | none => Except.error Err.indexError
       | some package_name =>
         mseq (update_project_name env dest_file_path package_name)
           (create_PR env package_dir_path source_file username package_name
             (orgOf package_name)))

/-- The message of the `RuntimeError` raised at lines 134-137. -/
def authMsg : String :=
  "Could not retrieve GitHub username using GitHub CLI. Please make sure your local machine is authenticated with GitHub."

/-- `get_github_username` (lines 126-137): query `gh api user --jq .login`;
on success return the stripped output, on `CalledProcessError` raise a
`RuntimeError` describing the authentication problem. -/
def get_github_username (env : Env) : Except Err String :=
  if env.ghUserOk then Except.ok (pyStrip env.ghLogin)
  else Except.error (Err.runtimeError authMsg)

/-- One `os.walk` triple: directory path, child directory names, file names. -/
structure WalkEntry where
  dirpath : String
  dirnames : List String
  filenames : List String
  deriving DecidableEq, Repr

/-- The body of the walk loop (lines 157-179) for one directory entry. -/
def processDir (env : Env)
    (dest_dir source_file news_file username : String) (e : WalkEntry) : M :=
  if dest_dir ∈ e.dirnames then
    let package_workflow_dir_path := pathJoin e.dirpath dest_dir
    let dest_file_path := pathJoin package_workflow_dir_path source_file
    if env.pathExists dest_file_path = false then
      mseq (Except.ok [Event.print "here"])
        (copy_file env source_file e.dirpath package_workflow_dir_path
          dest_file_path username)
    else Except.ok [Event.print ("File already exists in " ++
      package_workflow_dir_path)]
  else if "news" ∈ e.dirnames then
    let package_news_dir_path := pathJoin e.dirpath "news"
    let dest_news_file_path := pathJoin package_news_dir_path news_file
    if env.pathExists dest_news_file_path = false then
      mseq (sync_with_main_branch env e.dirpath)
        (mseq (new_branch env e.dirpath source_file)
          (copy_file env news_file e.dirpath package_news_dir_path
            dest_news_file_path username))
    else Except.ok [Event.print ("File already exists in " ++
      package_news_dir_path)]
  else Except.ok []

/-- The whole walk loop over the `os.walk('./')` output. -/
def walkAll (env : Env)
    (dest_dir source_file news_file username : String) : List WalkEntry → M
  | [] => Except.ok []
  | e :: rest =>
    mseq (processDir env dest_dir source_file news_file username e)
      (walkAll env dest_dir source_file news_file username rest)

/-- Argument access of lines 146-148: `sys.argv[1]`, `sys.argv[2]`,
`sys.argv[3]`; a missing argument raises `IndexError`. -/
def parseArgs : List String → Except Err (String × String × String)
  | _ :: a :: b :: c :: _ => Except.ok (a, b, c)
  | _ => Except.error Err.indexError

/-- `main` (lines 145-180): parse arguments, take basenames, resolve the
GitHub username, then walk the tree. -/
def main_run (env : Env) (argv : List String) (walk : List WalkEntry) : M :=
  match parseArgs argv with
  | Except.error e => Except.error e
  | Except.ok (source_file_path, repo_file_path, news_file_path) =>
    let source_file := pyLast (pySplit source_file_path '/')
    let news_file := pyLast (pySplit news_file_path '/')
    let dest_dir := pyLast (pySplit repo_file_path '/')
    match get_github_username env with
    | Except.error e => Except.error e
    | Except.ok username => walkAll env dest_dir source_file news_file username walk

/-- Segment model of template inputs used to state what rendering does: a
literal text block free of brace characters, or a variable tag written
with double braces around a whitespace-padded name. -/
inductive Seg where
  | text (s : String)
  | var (v : String)
  deriving DecidableEq, Repr

/-- The raw characters a segment contributes to the template source. -/
def segRaw : Seg → List Char
  | Seg.text s => s.data
  | Seg.var v => lbrace :: lbrace :: ' ' :: (v.data ++ [' ', rbrace, rbrace])

/-- Raw template source of a segment list. -/
def segsRaw (l : List Seg) : List Char :=
  l.foldr (fun s acc => segRaw s ++ acc) []

/-- The characters a segment contributes to the rendered output: text is kept,
the `project_name` variable becomes the package name, any other variable
renders as the empty string. -/
def segOut (pkg : String) : Seg → List Char
  | Seg.text s => s.data
  | Seg.var v => if v = "project_name" then pkg.data else []

/-- Rendered output of a segment list. -/
def segsOut (pkg : String) (l : List Seg) : List Char :=
  l.foldr (fun s acc => segOut pkg s ++ acc) []

/-- Well-formedness of a segment: text blocks carry no brace characters and
variable names carry no braces and no whitespace. -/
def segOk : Seg → Bool
  | Seg.text s => s.data.all (fun c => c != lbrace && c != rbrace)
  | Seg.var v => v.data.all (fun c => c != lbrace && c != rbrace && !c.isWhitespace)

/-- A result satisfies `RunPred R` when every executed command of a successful
trace satisfies `R`. -/
def RunPred (R : String → String → Prop) (r : M) : Prop :=
  ∀ tr, r = Except.ok tr → ∀ c w, Event.run c w ∈ tr → R c w

/-- `s` starts with the characters of `p`. -/
abbrev hasHead (p s : String) : Prop := s.data.take p.data.length = p.data

/-- Commands satisfying this never masquerade as a `gh pr create` invocation
for a different handle than `u`. -/
def prR (u c _w : String) : Prop :=
  hasHead "gh pr create" c → ∃ f, c = pr_command u f

/-- A result never aborts with a `RuntimeError`. -/
def NoRT (r : M) : Prop := ∀ m, r ≠ Except.error (Err.runtimeError m)

/-- Environment where everything succeeds and no destination path exists. -/
def envAllOk : Env :=
  ⟨true, "  alice\n", fun _ _ => true, fun _ => false,
   fun _ => "name: \x7b\x7b project_name \x7d\x7d"⟩

/-- Environment whose `gh api user` call fails. -/
def envNoAuth : Env :=
  ⟨false, "", fun _ _ => false, fun _ => false, fun _ => ""⟩

/-- Environment where identity resolution works but every shell command
fails. -/
def envNoCmd : Env :=
  ⟨true, "alice", fun _ _ => false, fun _ => false, fun _ => ""⟩

/-- Environment where every destination path already exists. -/
def envAllExists : Env :=
  ⟨true, "  alice\n", fun _ _ => true, fun _ => true, fun _ => ""⟩

/-- The example invocation of the script docstring. -/
def argvEx : List String :=
  ["update-repo.py", "../dev/example/test.yml", ".github/workflows",
   "../dev/example/build-workflow.rst"]

/-- An invocation whose news file is not named `build-workflow.rst`. -/
def argvNews : List String :=
  ["update-repo.py", "../dev/example/test.yml", ".github/workflows",
   "../dev/example/added.rst"]

/-- A one-entry walk whose directory contains a `workflows` child. -/
def wfWalk : List WalkEntry := [⟨"./pkg", ["workflows"], []⟩]

/-- The trace of the example run over `wfWalk` under `envAllOk`. -/
def wfTrace : List Event :=
  [Event.print "here",
   Event.copy "test.yml" "./pkg/workflows/test.yml",
   Event.print "File copied to ./pkg/workflows",
   Event.print "test.yml",
   Event.writeFile "./pkg/workflows/test.yml" "name: pkg",
   Event.run "git add workflows/test.yml" "./pkg",
   Event.run "git add ../news/build-workflow.rst" "./pkg",
   Event.run "git commit -m \"Add test.yml to workflow\"" "./pkg",
   Event.run "git push origin test.yml" "./pkg",
   Event.run "gh repo set-default Billingegroup/pkg" "./pkg",
   Event.run (pr_command "alice" "test.yml") "./pkg"]

/-- A one-entry walk whose directory contains only a `news` child. -/
def newsWalk : List WalkEntry := [⟨"./pkg", ["news"], []⟩]

/-- The trace of the run over `newsWalk` with news file `added.rst`. -/
def newsTrace : List Event :=
  [Event.run "git checkout main" "./pkg",
   Event.run "git pull upstream main" "./pkg",
   Event.run "git checkout -b test.yml" "./pkg",
   Event.copy "added.rst" "./pkg/news/added.rst",
   Event.print "File copied to ./pkg/news",
   Event.print "added.rst",
   Event.writeFile "./pkg/news/added.rst" "name: pkg",
   Event.run "git add workflows/added.rst" "./pkg",
   Event.run "git add ../news/build-workflow.rst" "./pkg",
   Event.run "git commit -m \"Add added.rst to workflow\"" "./pkg",
   Event.run "git push origin added.rst" "./pkg",
   Event.run "gh repo set-default Billingegroup/pkg" "./pkg",
   Event.run (pr_command "alice" "added.rst") "./pkg"]

/-- The trace of one successful `create_PR` call for file `added.rst`. -/
def prTraceEx : List Event :=
  [Event.run "git add workflows/added.rst" "./pkg",
   Event.run "git add ../news/build-workflow.rst" "./pkg",
   Event.run "git commit -m \"Add added.rst to workflow\"" "./pkg",
   Event.run "git push origin added.rst" "./pkg",
   Event.run "gh repo set-default Billingegroup/pkg" "./pkg",
   Event.run (pr_command "alice" "added.rst") "./pkg"]

theorem mseq_ok_iff {a b : M} {tr : List Event} :
    mseq a b = Except.ok tr ↔
      ∃ ta tb, a = Except.ok ta ∧ b = Except.ok tb ∧ tr = ta ++ tb := by
  constructor
  · intro h
    cases a with
    | error e => simp [mseq] at h
    | ok ta =>
      cases b with
      | error e => simp [mseq] at h
      | ok tb => exact ⟨ta, tb, rfl, rfl, (Except.ok.inj h).symm⟩
  · rintro ⟨ta, tb, rfl, rfl, rfl⟩
    rfl

theorem run_command_ok {env : Env} {c w : String} {tr : List Event}
    (h : run_command env c w = Except.ok tr) :
    tr = [Event.run c w] ∧ env.cmdOk c w = true := by
  rw [run_command] at h
  split at h
  · exact ⟨(Except.ok.inj h).symm, by assumption⟩
  · exact absurd h (by simp)

theorem runPred_error {R : String → String → Prop} {e : Err} :
    RunPred R (Except.error e) := by
  intro tr h
  exact absurd h (by simp)

theorem runPred_ok {R : String → String → Prop} {l : List Event}
    (h : ∀ c w, Event.run c w ∈ l → R c w) : RunPred R (Except.ok l) := by
  intro tr htr c w hm
  injection htr with h'
  subst h'
  exact h c w hm

theorem runPred_mseq {R : String → String → Prop} {a b : M}
    (ha : RunPred R a) (hb : RunPred R b) : RunPred R (mseq a b) := by
  intro tr htr c w hm
  rcases mseq_ok_iff.mp htr with ⟨ta, tb, ha', hb', rfl⟩
  rcases List.mem_append.mp hm with h | h
  · exact ha ta ha' c w h
  · exact hb tb hb' c w h

theorem runPred_run_command {R : String → String → Prop} {env : Env}
    {c w : String} (h : env.cmdOk c w = true → R c w) :
    RunPred R (run_command env c w) := by
  intro tr htr c' w' hm
  rcases run_command_ok htr with ⟨rfl, hok⟩
  rcases List.mem_singleton.mp hm with h'
  injection h' with h1 h2
  subst h1
  subst h2
  exact h hok

theorem runPred_create_PR {R : String → String → Prop} {env : Env}
    {cwd file username pkg org : String}
    (h1 : env.cmdOk ("git add workflows/" ++ file) cwd = true →
      R ("git add workflows/" ++ file) cwd)
    (h2 : env.cmdOk "git add ../news/build-workflow.rst" cwd = true →
      R "git add ../news/build-workflow.rst" cwd)
    (h3 : env.cmdOk ("git commit -m \"Add " ++ file ++ " to workflow\"") cwd = true →
      R ("git commit -m \"Add " ++ file ++ " to workflow\"") cwd)
    (h4 : env.cmdOk ("git push origin " ++ file) cwd = true →
      R ("git push origin " ++ file) cwd)
    (h5 : env.cmdOk ("gh repo set-default " ++ org ++ "/" ++ pkg) cwd = true →
      R ("gh repo set-default " ++ org ++ "/" ++ pkg) cwd)
    (h6 : env.cmdOk (pr_command username file) cwd = true →
      R (pr_command username file) cwd) :
    RunPred R (create_PR env cwd file username pkg org) := by
  unfold create_PR
  exact runPred_mseq (runPred_run_command h1)
    (runPred_mseq (runPred_run_command h2)
      (runPred_mseq (runPred_run_command h3)
        (runPred_mseq (runPred_run_command h4)
          (runPred_mseq (runPred_run_command h5) (runPred_run_command h6)))))

theorem runPred_copy_file {R : String → String → Prop} {env : Env}
    {sf pdp pwdp dfp u : String}
    (h : ∀ pkg, (pySplit pdp '/').get? 1 = some pkg →
      RunPred R (create_PR env pdp sf u pkg (orgOf pkg))) :
    RunPred R (copy_file env sf pdp pwdp dfp u) := by
  unfold copy_file
  refine runPred_mseq (runPred_ok ?_) ?_
  · intro c w hm
    simp at hm
  · split
    · exact runPred_ok (by intro c w hm; simp at hm)
    · split
      · exact runPred_error
      · next pkg heq =>
        refine runPred_mseq (runPred_ok ?_) (h pkg heq)
        intro c w hm
        simp [update_project_name] at hm

theorem runPred_sync {R : String → String → Prop} {env : Env} {p : String}
    (h1 : env.cmdOk "git checkout main" p = true → R "git checkout main" p)
    (h2 : env.cmdOk "git pull upstream main" p = true →
      R "git pull upstream main" p) :
    RunPred R (sync_with_main_branch env p) :=
  runPred_mseq (runPred_run_command h1) (runPred_run_command h2)

theorem runPred_processDir {R : String → String → Prop} {env : Env}
    {d s n u : String} {e : WalkEntry}
    (hsync : RunPred R (sync_with_main_branch env e.dirpath))
    (hbranch : RunPred R (new_branch env e.dirpath s))
    (hcs : ∀ pwdp dfp, RunPred R (copy_file env s e.dirpath pwdp dfp u))
    (hcn : ∀ pwdp dfp, RunPred R (copy_file env n e.dirpath pwdp dfp u)) :
    RunPred R (processDir env d s n u e) := by
  unfold processDir
  split
  · dsimp only
    split
    · exact runPred_mseq (runPred_ok (by intro c w hm; simp at hm)) (hcs _ _)
    · exact runPred_ok (by intro c w hm; simp at hm)
  · split
    · dsimp only
      split
      · exact runPred_mseq hsync (runPred_mseq hbranch (hcn _ _))
      · exact runPred_ok (by intro c w hm; simp at hm)
    · exact runPred_ok (by intro c w hm; simp at hm)

theorem runPred_walkAll {R : String → String → Prop} {env : Env}
    {d s n u : String}
    (h : ∀ e : WalkEntry, RunPred R (processDir env d s n u e)) :
    ∀ walk : List WalkEntry, RunPred R (walkAll env d s n u walk)
  | [] => runPred_ok (by intro c w hm; simp at hm)
  | e :: rest => runPred_mseq (h e) (runPred_walkAll h rest)

theorem not_hasHead_data {s : String} (a rest : List Char)
    (hs : s.data = a ++ rest) (hlen : 12 ≤ a.length)
    (hne : a.take 12 ≠ ("gh pr create").data) :
    ¬ hasHead "gh pr create" s := by
  intro h
  unfold hasHead at h
  have h12 : ("gh pr create" : String).data.length = 12 := rfl
  rw [h12, hs, List.take_append_eq_append_take,
    Nat.sub_eq_zero_of_le hlen, List.take_zero, List.append_nil] at h
  exact hne h

theorem not_hasHead_checkout : ¬ hasHead "gh pr create" "git checkout main" := by
  decide

theorem not_hasHead_pull : ¬ hasHead "gh pr create" "git pull upstream main" := by
  decide

theorem not_hasHead_news_add :
    ¬ hasHead "gh pr create" "git add ../news/build-workflow.rst" := by
  decide

theorem not_hasHead_branch (f : String) :
    ¬ hasHead "gh pr create" ("git checkout -b " ++ f) :=
  not_hasHead_data "git checkout -b ".data f.data (String.data_append _ _)
    (by decide) (by decide)

theorem not_hasHead_add (f : String) :
    ¬ hasHead "gh pr create" ("git add workflows/" ++ f) :=
  not_hasHead_data "git add workflows/".data f.data (String.data_append _ _)
    (by decide) (by decide)

theorem not_hasHead_commit (f : String) :
    ¬ hasHead "gh pr create" ("git commit -m \"Add " ++ f ++ " to workflow\"") :=
  not_hasHead_data "git commit -m \"Add ".data
    (f ++ " to workflow\"").data
    (by simp [String.data_append, List.append_assoc]) (by decide) (by decide)

theorem not_hasHead_push (f : String) :
    ¬ hasHead "gh pr create" ("git push origin " ++ f) :=
  not_hasHead_data "git push origin ".data f.data (String.data_append _ _)
    (by decide) (by decide)

theorem not_hasHead_setdefault (org pkg : String) :
    ¬ hasHead "gh pr create" ("gh repo set-default " ++ org ++ "/" ++ pkg) :=
  not_hasHead_data "gh repo set-default ".data (org ++ "/" ++ pkg).data
    (by simp [String.data_append, List.append_assoc]) (by decide) (by decide)

theorem prR_walkAll (env : Env) (d s n u : String) (walk : List WalkEntry) :
    RunPred (prR u) (walkAll env d s n u walk) := by
  refine runPred_walkAll (fun e => ?_) walk
  refine runPred_processDir
    (runPred_sync (fun _ => fun h => absurd h not_hasHead_checkout)
      (fun _ => fun h => absurd h not_hasHead_pull)) ?_ ?_ ?_
  · exact runPred_run_command (fun _ => fun h => absurd h (not_hasHead_branch s))
  · intro pwdp dfp
    refine runPred_copy_file (fun pkg _ => ?_)
    exact runPred_create_PR
      (fun _ h => absurd h (not_hasHead_add s))
      (fun _ h => absurd h not_hasHead_news_add)
      (fun _ h => absurd h (not_hasHead_commit s))
      (fun _ h => absurd h (not_hasHead_push s))
      (fun _ h => absurd h (not_hasHead_setdefault (orgOf pkg) pkg))
      (fun _ _ => ⟨s, rfl⟩)
  · intro pwdp dfp
    refine runPred_copy_file (fun pkg _ => ?_)
    exact runPred_create_PR
      (fun _ h => absurd h (not_hasHead_add n))
      (fun _ h => absurd h not_hasHead_news_add)
      (fun _ h => absurd h (not_hasHead_commit n))
      (fun _ h => absurd h (not_hasHead_push n))
      (fun _ h => absurd h (not_hasHead_setdefault (orgOf pkg) pkg))
      (fun _ _ => ⟨n, rfl⟩)

theorem cmdOk_walkAll (env : Env) (d s n u : String) (walk : List WalkEntry) :
    RunPred (fun c w => env.cmdOk c w = true) (walkAll env d s n u walk) := by
  refine runPred_walkAll (fun e => ?_) walk
  refine runPred_processDir
    (runPred_sync (fun h => h) (fun h => h))
    (runPred_run_command (fun h => h)) ?_ ?_ <;>
  · intro pwdp dfp
    refine runPred_copy_file (fun pkg _ => ?_)
    exact runPred_create_PR (fun h => h) (fun h => h) (fun h => h) (fun h => h)
      (fun h => h) (fun h => h)

theorem noRT_ok {l : List Event} : NoRT (Except.ok l) := by
  intro m h
  exact absurd h (by simp)

theorem noRT_cpe {c w : String} :
    NoRT (Except.error (Err.calledProcessError c w)) := by
  intro m h
  simp at h

theorem noRT_mseq {a b : M} (ha : NoRT a) (hb : NoRT b) : NoRT (mseq a b) := by
  intro m h
  cases a with
  | error e =>
    simp [mseq] at h
    exact ha m (by rw [h])
  | ok ta =>
    cases b with
    | error e =>
      simp [mseq] at h
      exact hb m (by rw [h])
    | ok tb => simp [mseq] at h

theorem noRT_run_command {env : Env} {c w : String} :
    NoRT (run_command env c w) := by
  intro m h
  rw [run_command] at h
  split at h
  · simp at h
  · simp at h

theorem noRT_copy_file {env : Env} {sf pdp pwdp dfp u : String} :
    NoRT (copy_file env sf pdp pwdp dfp u) := by
  unfold copy_file
  refine noRT_mseq noRT_ok ?_
  split
  · exact noRT_ok
  · split
    · intro m h
      simp at h
    · refine noRT_mseq noRT_ok ?_
      unfold create_PR
      exact noRT_mseq noRT_run_command (noRT_mseq noRT_run_command
        (noRT_mseq noRT_run_command (noRT_mseq noRT_run_command
          (noRT_mseq noRT_run_command noRT_run_command))))

theorem noRT_processDir {env : Env} {d s n u : String} {e : WalkEntry} :
    NoRT (processDir env d s n u e) := by
  unfold processDir
  split
  · dsimp only
    split
    · exact noRT_mseq noRT_ok noRT_copy_file
    · exact noRT_ok
  · split
    · dsimp only
      split
      · exact noRT_mseq (noRT_mseq noRT_run_command noRT_run_command)
          (noRT_mseq noRT_run_command noRT_copy_file)
      · exact noRT_ok
    · exact noRT_ok

theorem noRT_walkAll (env : Env) (d s n u : String) :
    ∀ walk : List WalkEntry, NoRT (walkAll env d s n u walk)
  | [] => noRT_ok
  | _ :: rest => noRT_mseq noRT_processDir (noRT_walkAll env d s n u rest)

/-- Claim C6 (confirmed): (1) a failing external command aborts immediately
with an uncaught `CalledProcessError`; (2) a failed identity resolution is
re-reported as a `RuntimeError` carrying the authentication/configuration
message; (3) no successful run ever contains a command that failed, so there
is no recovery; (4) the only `RuntimeError` a run can produce is the identity
one. -/
theorem c6_fail_fast :
    (∀ (env : Env) (c w : String), env.cmdOk c w = false →
      run_command env c w = Except.error (Err.calledProcessError c w)) ∧
    (∀ env : Env, env.ghUserOk = false →
      get_github_username env = Except.error (Err.runtimeError authMsg)) ∧
    (∀ (env : Env) (argv : List String) (walk : List WalkEntry)
      (tr : List Event) (c w : String),
      main_run env argv walk = Except.ok tr → Event.run c w ∈ tr →
      env.cmdOk c w = true) ∧
    (∀ (env : Env) (argv : List String) (walk : List WalkEntry) (m : String),
      main_run env argv walk = Except.error (Err.runtimeError m) →
      m = authMsg) := by
  refine ⟨?_, ?_, ?_, ?_⟩
  · intro env c w h
    simp [run_command, h]
  · intro env h
    simp [get_github_username, h]
  · intro env argv walk tr c w h hm
    unfold main_run at h
    split at h
    · simp at h
    · dsimp only at h
      split at h
      · simp at h
      · exact cmdOk_walkAll env _ _ _ _ walk tr h c w hm
  · intro env argv walk m h
    unfold main_run at h
    split at h
    · next e heq =>
      injection h with he
      subst he
      unfold parseArgs at heq
      split at heq
      · simp at heq
      · simp at heq
    · dsimp only at h
      split at h
      · next e heq =>
        injection h with he
        subst he
        unfold get_github_username at heq
        split at heq
        · simp at heq
        · injection heq with he'
          injection he' with he''
          exact he''.symm
      · exact absurd h (noRT_walkAll env _ _ _ _ walk m)

/-- Claim C8 (confirmed): (1) identity resolution returns the
whitespace-stripped login from the forge CLI output; (2) it runs before the
tree walk - when it fails, the run aborts with the authentication
`RuntimeError` no matter what the walk would have done; (3) every
`gh pr create` command in any successful run carries exactly the resolved
stripped handle as the head-ref user. -/
theorem c8_identity :
    (∀ env : Env, env.ghUserOk = true →
      get_github_username env = Except.ok (pyStrip env.ghLogin)) ∧
    (∀ (env : Env) (argv : List String) (walk : List WalkEntry)
      (t : String × String × String),
      parseArgs argv = Except.ok t → env.ghUserOk = false →
      main_run env argv walk = Except.error (Err.runtimeError authMsg)) ∧
    (∀ (env : Env) (argv : List String) (walk : List WalkEntry)
      (tr : List Event) (c w : String),
      main_run env argv walk = Except.ok tr → Event.run c w ∈ tr →
      hasHead "gh pr create" c →
      ∃ f, c = pr_command (pyStrip env.ghLogin) f) := by
  refine ⟨?_, ?_, ?_⟩
  · intro env h
    simp [get_github_username, h]
  · intro env argv walk t hparse hgh
    obtain ⟨a, b, c⟩ := t
    unfold main_run
    rw [hparse]
    simp [get_github_username, hgh]
  · intro env argv walk tr c w h hm hh
    unfold main_run at h
    split at h
    · simp at h
    · dsimp only at h
      split at h
      · simp at h
      · next u heq =>
        have hu : u = pyStrip env.ghLogin := by
          unfold get_github_username at heq
          split at heq
          · exact (Except.ok.inj heq).symm
          · simp at heq
        subst hu
        exact prR_walkAll env _ _ _ _ walk tr h c w hm hh

theorem run_command_ne_nil {env : Env} {c w : String} :
    run_command env c w ≠ Except.ok [] := by
  rw [run_command]
  split <;> simp

theorem mseq_left_ne_nil {a b : M} (ha : a ≠ Except.ok []) :
    mseq a b ≠ Except.ok [] := by
  cases a with
  | error e => simp [mseq]
  | ok ta =>
    cases b with
    | error e => simp [mseq]
    | ok tb =>
      simp only [mseq]
      intro h
      rcases List.append_eq_nil.mp (Except.ok.inj h) with ⟨h1, _⟩
      exact ha (by rw [h1])

/-- Claim C4 (confirmed): the walk body acts on a directory entry (returns a
non-empty trace or aborts) if and only if the entry's child-directory list
literally contains the destination directory name or the literal name `news`;
membership is plain string equality on a path segment, never a pattern. -/
theorem c4_literal_match (env : Env) (d s n u : String) (e : WalkEntry) :
    processDir env d s n u e ≠ Except.ok [] ↔
      d ∈ e.dirnames ∨ "news" ∈ e.dirnames := by
  constructor
  · intro h
    by_contra hc
    push_neg at hc
    obtain ⟨h1, h2⟩ := hc
    exact h (by unfold processDir; simp [h1, h2])
  · intro h
    unfold processDir
    by_cases h1 : d ∈ e.dirnames
    · simp only [if_pos h1]
      split
      · exact mseq_left_ne_nil (by simp)
      · simp
    · rcases h with h | h2
      · exact absurd h h1
      · simp only [if_neg h1, if_pos h2]
        split
        · exact mseq_left_ne_nil (mseq_left_ne_nil run_command_ne_nil)
        · simp

/-- Claim C9 (confirmed): when the copied basename is exactly
`build-workflow.rst`, `copy_file` performs only the copy and its two prints:
no template rendering or file write, no name derivation, and no git or forge
command at all. -/
theorem c9_special_news_file (env : Env) (pdp pwdp dfp u : String) :
    copy_file env "build-workflow.rst" pdp pwdp dfp u =
      Except.ok [Event.copy "build-workflow.rst" dfp,
        Event.print ("File copied to " ++ pwdp),
        Event.print "build-workflow.rst"] := by
  simp [copy_file, mseq]

/-- Claim C1 (confirmed): for every matched directory, when the computed
destination file already exists (in either the destination-directory branch or
the news branch of the walk body), the per-match action is exactly one printed
message - no branch creation, no file copy or write, no commit, push or pull
request - and the walk continues with the remaining entries. -/
theorem c1_skip_existing (env : Env) (d s n u : String) (e : WalkEntry)
    (rest : List WalkEntry) :
    (d ∈ e.dirnames →
      env.pathExists (pathJoin (pathJoin e.dirpath d) s) = true →
      processDir env d s n u e = Except.ok
        [Event.print ("File already exists in " ++ pathJoin e.dirpath d)] ∧
      ∀ tr, walkAll env d s n u rest = Except.ok tr →
        walkAll env d s n u (e :: rest) = Except.ok
          (Event.print ("File already exists in " ++ pathJoin e.dirpath d) :: tr)) ∧
    (d ∉ e.dirnames → "news" ∈ e.dirnames →
      env.pathExists (pathJoin (pathJoin e.dirpath "news") n) = true →
      processDir env d s n u e = Except.ok
        [Event.print ("File already exists in " ++ pathJoin e.dirpath "news")] ∧
      ∀ tr, walkAll env d s n u rest = Except.ok tr →
        walkAll env d s n u (e :: rest) = Except.ok
          (Event.print ("File already exists in " ++ pathJoin e.dirpath "news") :: tr)) := by
  constructor
  · intro hmem hex
    have hp : processDir env d s n u e = Except.ok
        [Event.print ("File already exists in " ++ pathJoin e.dirpath d)] := by
      unfold processDir
      simp [hmem, hex]
    refine ⟨hp, fun tr htr => ?_⟩
    show mseq (processDir env d s n u e) (walkAll env d s n u rest) = _
    rw [hp, htr]
    rfl
  · intro hmem hnews hex
    have hp : processDir env d s n u e = Except.ok
        [Event.print ("File already exists in " ++ pathJoin e.dirpath "news")] := by
      unfold processDir
      simp [hmem, hnews, hex]
    refine ⟨hp, fun tr htr => ?_⟩
    show mseq (processDir env d s n u e) (walkAll env d s n u rest) = _
    rw [hp, htr]
    rfl

/-- Claim C2 (corrected): exact ordered step lists for a matched directory
whose destination file does not exist, assuming every external command
succeeds.  A directory matched by the destination-directory name proceeds
directly to copy, render, stage/commit/push and pull request, with no branch
sync and no topic-branch creation; the sync with main and the topic-branch
creation occur only for a directory matched by a literal `news` child. -/
theorem c2_per_match_steps (env : Env) (d s n u pkg : String) (e : WalkEntry)
    (hok : ∀ c w, env.cmdOk c w = true)
    (hpkg : (pySplit e.dirpath '/').get? 1 = some pkg) :
    (d ∈ e.dirnames →
      env.pathExists (pathJoin (pathJoin e.dirpath d) s) = false →
      s ≠ "build-workflow.rst" →
      processDir env d s n u e = Except.ok
        [Event.print "here",
         Event.copy s (pathJoin (pathJoin e.dirpath d) s),
         Event.print ("File copied to " ++ pathJoin e.dirpath d),
         Event.print s,
         Event.writeFile (pathJoin (pathJoin e.dirpath d) s)
           (renderS (env.readFile (pathJoin (pathJoin e.dirpath d) s)) pkg),
         Event.run ("git add workflows/" ++ s) e.dirpath,
         Event.run "git add ../news/build-workflow.rst" e.dirpath,
         Event.run ("git commit -m \"Add " ++ s ++ " to workflow\"") e.dirpath,
         Event.run ("git push origin " ++ s) e.dirpath,
         Event.run ("gh repo set-default " ++ orgOf pkg ++ "/" ++ pkg) e.dirpath,
         Event.run (pr_command u s) e.dirpath]) ∧
    (d ∉ e.dirnames → "news" ∈ e.dirnames →
      env.pathExists (pathJoin (pathJoin e.dirpath "news") n) = false →
      n ≠ "build-workflow.rst" →
      processDir env d s n u e = Except.ok
        [Event.run "git checkout main" e.dirpath,
         Event.run "git pull upstream main" e.dirpath,
         Event.run ("git checkout -b " ++ s) e.dirpath,
         Event.copy n (pathJoin (pathJoin e.dirpath "news") n),
         Event.print ("File copied to " ++ pathJoin e.dirpath "news"),
         Event.print n,
         Event.writeFile (pathJoin (pathJoin e.dirpath "news") n)
           (renderS (env.readFile (pathJoin (pathJoin e.dirpath "news") n)) pkg),
         Event.run ("git add workflows/" ++ n) e.dirpath,
         Event.run "git add ../news/build-workflow.rst" e.dirpath,
         Event.run ("git commit -m \"Add " ++ n ++ " to workflow\"") e.dirpath,
         Event.run ("git push origin " ++ n) e.dirpath,
         Event.run ("gh repo set-default " ++ orgOf pkg ++ "/" ++ pkg) e.dirpath,
         Event.run (pr_command u n) e.dirpath]) := by
  have hpkg' : (pySplit e.dirpath '/')[1]? = some pkg := by
    simpa using hpkg
  constructor
  · intro hmem hex hs
    unfold processDir
    simp [hmem, hex, copy_file, hs, hpkg', update_project_name, create_PR,
      run_command, hok, mseq]
  · intro hmem hnews hex hn
    unfold processDir
    simp [hmem, hnews, hex, copy_file, hn, hpkg', update_project_name, create_PR,
      sync_with_main_branch, new_branch, run_command, hok, mseq]

/-- Claim C7 (confirmed): whenever `copy_file` proceeds past the
`build-workflow.rst` guard, the package name is path component 1 of the
directory path split on `/`, and the repository default is set under
organization `diffpy` exactly when the package name's first dot-separated
segment is `diffpy`, and under `Billingegroup` otherwise. -/
theorem c7_derived_names (env : Env) (src pdp pwdp dfp u pkg : String)
    (tr : List Event)
    (hs : src ≠ "build-workflow.rst")
    (hpkg : (pySplit pdp '/').get? 1 = some pkg)
    (h : copy_file env src pdp pwdp dfp u = Except.ok tr) :
    Event.run ("gh repo set-default " ++
      (if (pySplit pkg '.').headD "" = "diffpy" then "diffpy"
       else "Billingegroup") ++ "/" ++ pkg) pdp ∈ tr := by
  have hpkg' : (pySplit pdp '/')[1]? = some pkg := by simpa using hpkg
  unfold copy_file at h
  rw [if_neg hs] at h
  simp only [List.get?_eq_getElem?] at h
  rw [hpkg'] at h
  rcases mseq_ok_iff.mp h with ⟨ta, tb, ha, hb, rfl⟩
  rcases mseq_ok_iff.mp hb with ⟨tu, tc, hu, hc, rfl⟩
  unfold create_PR at hc
  rcases mseq_ok_iff.mp hc with ⟨t1, t2, h1, h2, rfl⟩
  rcases mseq_ok_iff.mp h2 with ⟨t3, t4, h3, h4, rfl⟩
  rcases mseq_ok_iff.mp h4 with ⟨t5, t6, h5, h6, rfl⟩
  rcases mseq_ok_iff.mp h6 with ⟨t7, t8, h7, h8, rfl⟩
  rcases mseq_ok_iff.mp h8 with ⟨t9, t10, h9, h10, rfl⟩
  rcases run_command_ok h9 with ⟨rfl, _⟩
  simp [orgOf]

/-- Claim C10 (corrected, amended form): every successful `create_PR` call
stages the fixed relative path `../news/build-workflow.rst` regardless of the
command-line news argument, and uses its `file` argument - the basename of the
file just copied, which is the news file's basename for news-directory matches
- as the pushed branch name, the PR head ref, and in the title, body and
commit message. -/
theorem c10_create_PR_trace (env : Env) (cwd file username pkg org : String)
    (tr : List Event)
    (h : create_PR env cwd file username pkg org = Except.ok tr) :
    tr = [Event.run ("git add workflows/" ++ file) cwd,
      Event.run "git add ../news/build-workflow.rst" cwd,
      Event.run ("git commit -m \"Add " ++ file ++ " to workflow\"") cwd,
      Event.run ("git push origin " ++ file) cwd,
      Event.run ("gh repo set-default " ++ org ++ "/" ++ pkg) cwd,
      Event.run (pr_command username file) cwd] ∧
    Event.run "git add ../news/build-workflow.rst" cwd ∈ tr := by
  unfold create_PR at h
  rcases mseq_ok_iff.mp h with ⟨t1, t2, h1, h2, rfl⟩
  rcases mseq_ok_iff.mp h2 with ⟨t3, t4, h3, h4, rfl⟩
  rcases mseq_ok_iff.mp h4 with ⟨t5, t6, h5, h6, rfl⟩
  rcases mseq_ok_iff.mp h6 with ⟨t7, t8, h7, h8, rfl⟩
  rcases mseq_ok_iff.mp h8 with ⟨t9, t10, h9, h10, rfl⟩
  rcases run_command_ok h1 with ⟨rfl, _⟩
  rcases run_command_ok h3 with ⟨rfl, _⟩
  rcases run_command_ok h5 with ⟨rfl, _⟩
  rcases run_command_ok h7 with ⟨rfl, _⟩
  rcases run_command_ok h9 with ⟨rfl, _⟩
  rcases run_command_ok h10 with ⟨rfl, _⟩
  simp

/-- Claim C5 (corrected, amended form): argument parsing succeeds if and only
if at least three positional arguments follow the program name, so the
news-file path is required, not optional. -/
theorem c5_news_arg_required (argv : List String) :
    (∃ t, parseArgs argv = Except.ok t) ↔ 4 ≤ argv.length := by
  match argv with
  | [] => simp [parseArgs]
  | [_] => simp [parseArgs]
  | [_, _] => simp [parseArgs]
  | [_, _, _] => simp [parseArgs]
  | _ :: _ :: _ :: _ :: _ =>
    simp only [parseArgs, List.length_cons]
    constructor
    · intro
      omega
    · intro
      exact ⟨_, rfl⟩

theorem renderCore_cons_none {pkg : String} {x : Char} {l : List Char}
    (hx : x ≠ lbrace) :
    renderCore pkg (x :: l) none = x :: renderCore pkg l none := by
  cases l with
  | nil => simp [renderCore, hx]
  | cons y ys => simp [renderCore, hx]

theorem renderCore_text {pkg : String} (a : List Char) {b : List Char}
    (ha : ∀ c ∈ a, c ≠ lbrace) :
    renderCore pkg (a ++ b) none = a ++ renderCore pkg b none := by
  induction a with
  | nil => simp
  | cons x xs ih =>
    simp only [List.cons_append]
    rw [renderCore_cons_none (ha x (by simp)), ih (fun c hc => ha c (by simp [hc]))]

theorem renderCore_tag_open {pkg : String} {l : List Char} :
    renderCore pkg (lbrace :: lbrace :: l) none = renderCore pkg l (some []) := by
  simp [renderCore]

theorem renderCore_acc {pkg : String} {x : Char} {l acc : List Char}
    (hx : x ≠ rbrace) :
    renderCore pkg (x :: l) (some acc) = renderCore pkg l (some (x :: acc)) := by
  cases l with
  | nil => simp [renderCore, hx]
  | cons y ys => simp [renderCore, hx]

theorem renderCore_scan {pkg : String} (a : List Char) {l : List Char}
    (ha : ∀ c ∈ a, c ≠ rbrace) :
    ∀ acc, renderCore pkg (a ++ l) (some acc) =
      renderCore pkg l (some (a.reverse ++ acc)) := by
  induction a with
  | nil => simp
  | cons x xs ih =>
    intro acc
    simp only [List.cons_append]
    rw [renderCore_acc (ha x (by simp)), ih (fun c hc => ha c (by simp [hc]))]
    simp

theorem renderCore_close {pkg : String} {l acc : List Char} :
    renderCore pkg (rbrace :: rbrace :: l) (some acc) =
      (if pyStrip (String.mk acc.reverse) = "project_name" then pkg.data
       else []) ++ renderCore pkg l none := by
  simp [renderCore]

theorem dropWhile_ws_id {l : List Char} (h : ∀ c ∈ l, c.isWhitespace = false) :
    l.dropWhile Char.isWhitespace = l := by
  cases l with
  | nil => rfl
  | cons x xs => simp [List.dropWhile_cons, h x (by simp)]

theorem pyStrip_pad {v : String} (hv : ∀ c ∈ v.data, c.isWhitespace = false) :
    pyStrip (String.mk (' ' :: (v.data ++ [' ']))) = v := by
  obtain ⟨d⟩ := v
  unfold pyStrip
  cases d with
  | nil => decide
  | cons c t =>
    have hc : c.isWhitespace = false := hv c (List.mem_cons_self c t)
    have hsp : (' ' : Char).isWhitespace = true := rfl
    have ht : ∀ x ∈ t.reverse ++ [c], x.isWhitespace = false := by
      intro x hx
      rcases List.mem_append.mp hx with hx | hx
      · exact hv x (List.mem_cons_of_mem c (List.mem_reverse.mp hx))
      · rw [List.mem_singleton.mp hx]
        exact hc
    simp [List.dropWhile_cons, hsp, hc, dropWhile_ws_id ht]

/-- Claim C3 (corrected): rendering a template made of brace-free text blocks
and variable tags replaces each `project_name` tag by the package name, keeps
the text blocks, and renders every other variable tag as the empty string
(so content mentioning other variables is not left unchanged). -/
theorem c3_render_segments (pkg : String) (segs : List Seg)
    (h : ∀ sg ∈ segs, segOk sg = true) :
    renderS (String.mk (segsRaw segs)) pkg = String.mk (segsOut pkg segs) := by
  unfold renderS
  congr 1
  show renderCore pkg (segsRaw segs) none = segsOut pkg segs
  induction segs with
  | nil => rfl
  | cons sg rest ih =>
    have hrest : ∀ s ∈ rest, segOk s = true :=
      fun s hs => h s (List.mem_cons_of_mem sg hs)
    have hsg : segOk sg = true := h sg (List.mem_cons_self sg rest)
    show renderCore pkg (segRaw sg ++ segsRaw rest) none =
      segOut pkg sg ++ segsOut pkg rest
    cases sg with
    | text s =>
      have hs' : ∀ c ∈ s.data, c ≠ lbrace := by
        intro c hc
        have := hsg
        simp only [segOk, List.all_eq_true] at this
        have h2 := this c hc
        simp only [Bool.and_eq_true, bne_iff_ne, ne_eq] at h2
        exact h2.1
      show renderCore pkg (s.data ++ segsRaw rest) none = s.data ++ segsOut pkg rest
      rw [renderCore_text s.data hs', ih hrest]
    | var v =>
      have hv : ∀ c ∈ v.data, c ≠ lbrace ∧ c ≠ rbrace ∧ c.isWhitespace = false := by
        intro c hc
        have := hsg
        simp only [segOk, List.all_eq_true] at this
        have h2 := this c hc
        simp only [Bool.and_eq_true, bne_iff_ne, ne_eq, Bool.not_eq_true'] at h2
        exact ⟨h2.1.1, h2.1.2, h2.2⟩
      have hnb : ∀ c ∈ ' ' :: (v.data ++ [' ']), c ≠ rbrace := by
        intro c hc
        rcases List.mem_cons.mp hc with rfl | hc
        · decide
        · rcases List.mem_append.mp hc with hc | hc
          · exact (hv c hc).2.1
          · rw [List.mem_singleton.mp hc]
            decide
      have hws : ∀ c ∈ v.data, c.isWhitespace = false := fun c hc => (hv c hc).2.2
      show renderCore pkg
        ((lbrace :: lbrace :: ' ' :: (v.data ++ [' ', rbrace, rbrace])) ++ segsRaw rest)
          none = (if v = "project_name" then pkg.data else []) ++ segsOut pkg rest
      have hsplit :
          (lbrace :: lbrace :: ' ' :: (v.data ++ [' ', rbrace, rbrace])) ++ segsRaw rest =
            lbrace :: lbrace ::
              ((' ' :: (v.data ++ [' '])) ++ (rbrace :: rbrace :: segsRaw rest)) := by
        simp
      rw [hsplit, renderCore_tag_open, renderCore_scan _ hnb, renderCore_close]
      simp only [List.append_nil, List.reverse_reverse]
      rw [pyStrip_pad hws, ih hrest]

/-- Claim C2 counterexample: a concrete run in which a directory is matched by
the destination-directory name, its destination file is absent, and the trace
reaches a pull request yet contains no `git checkout main`, no
`git pull upstream main` and no `git checkout -b` command, contradicting the
claimed per-match order sync - branch - copy - render - commit/push - PR. -/
theorem c2_counterexample :
    main_run envAllOk argvEx wfWalk = Except.ok wfTrace ∧
    Event.run (pr_command "alice" "test.yml") "./pkg" ∈ wfTrace ∧
    Event.run "git checkout main" "./pkg" ∉ wfTrace ∧
    Event.run "git pull upstream main" "./pkg" ∉ wfTrace ∧
    Event.run "git checkout -b test.yml" "./pkg" ∉ wfTrace :=
  ⟨by rfl, by decide, by decide, by decide, by decide⟩

/-- Claim C10 counterexample: in a news-directory match with news file
`added.rst`, the run pushes and opens the PR under `added.rst` - not under the
source file's basename `test.yml`, which only names the created topic branch -
refuting the claim that the source basename is simultaneously the pushed
branch, head ref, title, body and commit-message name.  The fixed news path is
still the one staged. -/
theorem c10_counterexample :
    main_run envAllOk argvNews newsWalk = Except.ok newsTrace ∧
    Event.run "git add ../news/build-workflow.rst" "./pkg" ∈ newsTrace ∧
    Event.run (pr_command "alice" "added.rst") "./pkg" ∈ newsTrace ∧
    Event.run "git push origin added.rst" "./pkg" ∈ newsTrace ∧
    Event.run "git checkout -b test.yml" "./pkg" ∈ newsTrace ∧
    Event.run (pr_command "alice" "test.yml") "./pkg" ∉ newsTrace ∧
    Event.run "git push origin test.yml" "./pkg" ∉ newsTrace :=
  ⟨by rfl, by decide, by decide, by decide, by decide, by decide, by decide⟩

/-- Claim C3 counterexample: a file content containing a variable other than
the declared project-name variable is changed by rendering - the tag is
replaced by the empty string - contradicting the claim that all other content
is left unchanged. -/
theorem c3_counterexample :
    renderS "a\x7b\x7b other \x7d\x7db" "pkg" = "ab" ∧
    ("ab" : String) ≠ "a\x7b\x7b other \x7d\x7db" :=
  ⟨by decide, by decide⟩

/-- Claim C5 counterexample: invoking the program with only a source file path
and a destination directory name aborts argument parsing with an `IndexError`
(from `sys.argv[3]`), so parsing does not succeed as the claim states. -/
theorem c5_counterexample :
    main_run envAllOk
      ["update-repo.py", "../dev/example/test.yml", ".github/workflows"] [] =
      Except.error Err.indexError := by
  rfl

/-- Witness for C1: a concrete matched directory whose destination file
exists produces exactly the one message. -/
theorem c1_skip_existing_witness :
    processDir envAllExists "workflows" "test.yml" "build-workflow.rst" "alice"
        ⟨"./pkg", ["workflows"], []⟩ =
      Except.ok [Event.print "File already exists in ./pkg/workflows"] :=
  ((c1_skip_existing envAllExists "workflows" "test.yml" "build-workflow.rst"
      "alice" ⟨"./pkg", ["workflows"], []⟩ []).1 (by decide) (by decide)).1

/-- Witness for C2's amended statement: the destination-directory branch at
concrete inputs, producing the full step list with no sync and no branch
creation. -/
theorem c2_per_match_steps_witness :
    processDir envAllOk "workflows" "test.yml" "build-workflow.rst" "alice"
        ⟨"./pkg", ["workflows"], []⟩ = Except.ok wfTrace :=
  (c2_per_match_steps envAllOk "workflows" "test.yml" "build-workflow.rst"
      "alice" "pkg" ⟨"./pkg", ["workflows"], []⟩ (fun _ _ => rfl) (by decide)).1
    (by decide) (by decide) (by decide)

/-- Witness for C3's amended statement at a concrete template and package
name. -/
theorem c3_render_segments_witness :
    renderS "name: \x7b\x7b project_name \x7d\x7d!" "diffpy.utils" =
      "name: diffpy.utils!" :=
  c3_render_segments "diffpy.utils"
    [Seg.text "name: ", Seg.var "project_name", Seg.text "!"] (by decide)

/-- Witness for C6 at concrete inputs: a failing command, a failing identity
lookup, a successful run containing `git checkout main`, and the error of an
unauthenticated run. -/
theorem c6_fail_fast_witness :
    run_command envNoCmd "git checkout main" "./pkg" =
      Except.error (Err.calledProcessError "git checkout main" "./pkg") ∧
    get_github_username envNoAuth = Except.error (Err.runtimeError authMsg) ∧
    envAllOk.cmdOk "git checkout main" "./pkg" = true ∧
    authMsg = authMsg :=
  ⟨c6_fail_fast.1 envNoCmd "git checkout main" "./pkg" rfl,
   c6_fail_fast.2.1 envNoAuth rfl,
   c6_fail_fast.2.2.1 envAllOk argvEx [⟨"./pkg", ["news"], []⟩]
     [Event.run "git checkout main" "./pkg",
      Event.run "git pull upstream main" "./pkg",
      Event.run "git checkout -b test.yml" "./pkg",
      Event.copy "build-workflow.rst" "./pkg/news/build-workflow.rst",
      Event.print "File copied to ./pkg/news",
      Event.print "build-workflow.rst"]
     "git checkout main" "./pkg" (by rfl) (by decide),
   c6_fail_fast.2.2.2 envNoAuth argvEx [] authMsg (by rfl)⟩

/-- Witness for C7: in directory `./diffpy.structure` the package name is
`diffpy.structure` and the organization resolves to `diffpy`. -/
theorem c7_derived_names_witness :
    Event.run "gh repo set-default diffpy/diffpy.structure" "./diffpy.structure" ∈
      ([Event.copy "test.yml" "y",
        Event.print "File copied to x",
        Event.print "test.yml",
        Event.writeFile "y" "name: diffpy.structure",
        Event.run "git add workflows/test.yml" "./diffpy.structure",
        Event.run "git add ../news/build-workflow.rst" "./diffpy.structure",
        Event.run "git commit -m \"Add test.yml to workflow\"" "./diffpy.structure",
        Event.run "git push origin test.yml" "./diffpy.structure",
        Event.run "gh repo set-default diffpy/diffpy.structure" "./diffpy.structure",
        Event.run (pr_command "alice" "test.yml") "./diffpy.structure"] : List Event) :=
  c7_derived_names envAllOk "test.yml" "./diffpy.structure" "x" "y" "alice"
    "diffpy.structure" _ (by decide) (by decide) (by rfl)

/-- Witness for C8 at concrete inputs: the stripped login of `envAllOk`, an
unauthenticated run aborting with the auth error, and the PR command of a
concrete run using the resolved handle. -/
theorem c8_identity_witness :
    get_github_username envAllOk = Except.ok (pyStrip envAllOk.ghLogin) ∧
    pyStrip envAllOk.ghLogin = "alice" ∧
    main_run envNoAuth argvEx [] = Except.error (Err.runtimeError authMsg) ∧
    (∃ f, pr_command "alice" "test.yml" =
      pr_command (pyStrip envAllOk.ghLogin) f) :=
  ⟨c8_identity.1 envAllOk rfl,
   by decide,
   c8_identity.2.1 envNoAuth argvEx []
     ("../dev/example/test.yml", ".github/workflows",
      "../dev/example/build-workflow.rst") (by rfl) rfl,
   c8_identity.2.2 envAllOk argvEx wfWalk wfTrace
     (pr_command "alice" "test.yml") "./pkg" (by rfl) (by decide) (by decide)⟩

/-- Witness for C10's amended statement: a concrete `create_PR` trace. -/
theorem c10_create_PR_trace_witness :
    prTraceEx =
      [Event.run "git add workflows/added.rst" "./pkg",
       Event.run "git add ../news/build-workflow.rst" "./pkg",
       Event.run "git commit -m \"Add added.rst to workflow\"" "./pkg",
       Event.run "git push origin added.rst" "./pkg",
       Event.run "gh repo set-default Billingegroup/pkg" "./pkg",
       Event.run (pr_command "alice" "added.rst") "./pkg"] ∧
    Event.run "git add ../news/build-workflow.rst" "./pkg" ∈ prTraceEx :=
  c10_create_PR_trace envAllOk "./pkg" "added.rst" "alice" "pkg" "Billingegroup"
    prTraceEx (by rfl)
